import Mathlib

/-
Verification of the file-handle and volume-lifecycle manager of the ntfs-3g
UEFI driver, as implemented in `src/uefi-driver/uefi_file.c`.

The C code is shallowly embedded below.  The opaque filesystem-engine
collaborator (the `Ntfs*` bridge functions of `uefi_bridge.c`) and the path
helpers of `uefi_support.c` are not part of the provided sources; wherever one
of them decides behaviour it is modelled from the design document, and its doc
comment says so.  CHAR16 strings are modelled as lists of natural-number code
units; machine integers (`INTN` counters) are modelled as `Int`; the UEFI
`UINT64` open-mode bitmask is modelled as `Nat` with explicit bit constants.
-/

/-- EFI status codes returned by the protocol surface (§7 error taxonomy). -/
inductive EfiStatus where
  | success
  | warnDeleteFailure
  | notFound
  | accessDenied
  | writeProtected
  | invalidParameter
  | badBufferSize
  | bufferTooSmall
  | deviceError
  | unsupported
  | outOfResources
  | endOfFile
deriving DecidableEq, Repr

/-- The access mode attached to a handle *value*.  The C code distinguishes the
two by which of the `EfiFileRO`/`EfiFileRW` sub-structure addresses the value
equals (`RO_ACCESS`/`BASE_FILE` macros); the design notes say to reimplement
this as an explicit tag on the value, which is what we do. -/
inductive Access where
  | ro
  | rw
deriving DecidableEq, Repr

/-- A CHAR16 string, as a list of code units. -/
abbrev WStr := List Nat

/-- The canonical path delimiter.  Modelled from the spec: `PATH_CHAR` is
defined in `uefi_support.h`, which is not part of the provided sources; it is
the canonical delimiter of §4.1, rendered here as the code unit of a slash. -/
def PATH_CHAR : Nat := 47

/-- The alternate (secondary) delimiter of §4.1.  Modelled from the spec:
`DOS_PATH_CHAR` is defined in `uefi_support.h`, not in the provided sources;
rendered here as the code unit of a backslash. -/
def DOS_PATH_CHAR : Nat := 92

/-- The name ".". -/
def dotName : WStr := [46]

/-- The name "..". -/
def dotdotName : WStr := [46, 46]

/-- The UEFI open-mode bit for read access. -/
def EFI_FILE_MODE_READ : Nat := 1

/-- The UEFI open-mode bit for write access. -/
def EFI_FILE_MODE_WRITE : Nat := 2

/-- The UEFI open-mode bit (bit 63) for creation. -/
def EFI_FILE_MODE_CREATE : Nat := 2 ^ 63

/-- The UEFI directory attribute bit (bit 4, `EFI_FILE_DIRECTORY = 0x10`). -/
def EFI_FILE_DIRECTORY : Nat := 2 ^ 4

/-- Modelled from the spec: `CleanPath` lives in `uefi_support.c`, which is not
among the provided sources.  Per §4.1 the concatenated path is cleaned: runs of
repeated delimiters collapse to one, a segment of exactly "." is removed, a
segment of exactly ".." removes itself and the preceding segment without ever
escaping above the root, and the result is non-empty and absolute. -/
def CleanPath (p : WStr) : WStr :=
  let segs := (p.splitOn PATH_CHAR).foldl
    (fun acc seg =>
      if seg = ([] : WStr) ∨ seg = dotName then acc
      else if seg = dotdotName then acc.dropLast
      else acc ++ [seg])
    ([] : List WStr)
  PATH_CHAR :: List.intercalate [PATH_CHAR] segs

/-- The base name is the tail of the path after its last delimiter (the C code
scans backwards for `PATH_CHAR` and points `BaseName` into the path buffer). -/
def BaseNameOf (p : WStr) : WStr :=
  (p.splitOn PATH_CHAR).getLastD []

/-- One `EFI_NTFS_FILE` instance (`uefi_driver.h`).  The two `EFI_FILE`
sub-structures that alias the object are represented by handle values
`(id, Access)` elsewhere; `NtfsInode` being a null/non-null opaque pointer is
represented by the Boolean `inodePresent`. -/
structure NtfsFile where
  isDir : Bool
  isRoot : Bool
  dirPos : Nat
  offset : Nat
  path : WStr
  baseName : WStr
  refCount : Int
  inodePresent : Bool
deriving DecidableEq, Repr

/-- A freshly allocated, zero-initialised file instance, as produced by
`NtfsAllocateFile`.  Modelled from the spec: `AllocateFileObject` of the engine
collaborator (§6) zero-allocates the object; `uefi_bridge.c` is not among the
provided sources. -/
def blankFile : NtfsFile :=
  { isDir := false, isRoot := false, dirPos := 0, offset := 0,
    path := [], baseName := [], refCount := 0, inodePresent := false }

/-- One `EFI_FS` volume instance (`uefi_driver.h`), restricted to the state
the file operations read and write.  Live (allocated, not yet freed) file
instances are kept in an association list keyed by an allocation id; the two
cumulative allocation counters record every path-buffer and file-object
allocation ever made, so that "allocates no new path/object" is expressible. -/
structure EfiFs where
  mounted : Bool
  readOnly : Bool
  totalRefCount : Int
  files : List (Nat × NtfsFile)
  nextId : Nat
  pathAllocCount : Nat
  fileAllocCount : Nat
deriving DecidableEq, Repr

/-- Replace the file stored under `id`, leaving every other entry alone. -/
def setF (l : List (Nat × NtfsFile)) (id : Nat) (f : NtfsFile) :
    List (Nat × NtfsFile) :=
  l.map (fun p => if p.1 = id then (p.1, f) else p)

/-- Remove the file stored under `id`. -/
def removeF (l : List (Nat × NtfsFile)) (id : Nat) : List (Nat × NtfsFile) :=
  l.filter (fun p => p.1 ≠ id)

/-- Modelled from the spec: `NtfsFreeFile` of `uefi_bridge.c` is not among the
provided sources.  Per §4.3 and §6, `FreeFileObject` destroys the object (path
freed, engine node released) only when its reference count is zero and is a
no-op otherwise; on an already-destroyed object it is likewise a no-op. -/
def NtfsFreeFile (s : EfiFs) (id : Nat) : EfiFs :=
  match s.files.lookup id with
  | none => s
  | some f => if f.refCount = 0 then { s with files := removeF s.files id } else s

/-- Modelled from the spec: `NtfsUnmountVolume` of `uefi_bridge.c` is not among
the provided sources.  Per §6 it invokes the engine's unmount primitive. -/
def NtfsUnmountVolume (s : EfiFs) : EfiFs :=
  { s with mounted := false }

/-- A volume as discovered by `FSInstall`, before any handle is opened. -/
def InitState (ro : Bool) : EfiFs :=
  { mounted := false, readOnly := ro, totalRefCount := 0, files := [],
    nextId := 0, pathAllocCount := 0, fileAllocCount := 0 }

/-- `FileOpenVolume` (`uefi_file.c:743`): mounts the volume, allocates the root
file with path "/" (its base name is the empty tail of that path), opens it,
and returns the root handle after incrementing both reference counts.  The
returned value is the address of the `EFI_NTFS_FILE` itself, i.e. its leading
`EfiFileRW` member, hence a read-write value.  `NtfsMountVolume`,
`NtfsAllocateFile` and `NtfsOpenFile` are engine collaborators modelled from
the spec (§6) as succeeding; the engine marks the "/" object as the root
directory. -/
def FileOpenVolume (s : EfiFs) : EfiFs × EfiStatus × Option (Nat × Access) :=
  let s1 : EfiFs := { s with mounted := true }
  let rid := s1.nextId
  let root : NtfsFile :=
    { isDir := true, isRoot := true, dirPos := 0, offset := 0,
      path := [PATH_CHAR], baseName := [], refCount := 1, inodePresent := true }
  ({ s1 with
      files := (rid, root) :: s1.files
      nextId := rid + 1
      fileAllocCount := s1.fileAllocCount + 1
      pathAllocCount := s1.pathAllocCount + 1
      totalRefCount := s1.totalRefCount + 1 },
   .success, some (rid, .rw))

/-- `FileOpen` (`uefi_file.c:51`).  The parameter `eng` stands in for the
engine collaborator `NtfsOpenFile` (`uefi_bridge.c`, not among the provided
sources): it is modelled from the spec (§6) as mapping a resolved absolute
path either to `none` (the engine reports NotFound) or to `some isDir`, a
successfully opened object together with its directory flag; the engine also
marks the object opened at "/" as the root.  The spec's remark that the engine
may substitute a pre-existing object for an already-open path is not modelled:
opening always yields the fresh instance.  `NtfsCreateFile` is modelled from
the spec as succeeding.  Every other branch follows the C source line by
line. -/
def FileOpen (eng : WStr → Option Bool) (s : EfiFs) (pid : Nat)
    (name : WStr) (mode : Nat) (attrs : Nat) :
    EfiFs × EfiStatus × Option (Nat × Access) :=
  match s.files.lookup pid with
  | none => (s, .deviceError, none)
  | some file =>
    if s.readOnly = true ∧ mode ≠ EFI_FILE_MODE_READ then
      (s, .writeProtected, none)
    else if name = dotdotName ∧ file.isRoot = true then
      (s, .notFound, none)
    else if file.isDir = false then
      (s, .notFound, none)
    else if ¬(mode = EFI_FILE_MODE_READ ∨
              mode = EFI_FILE_MODE_READ + EFI_FILE_MODE_WRITE ∨
              mode = EFI_FILE_MODE_CREATE + EFI_FILE_MODE_READ +
                     EFI_FILE_MODE_WRITE) then
      (s, .invalidParameter, none)
    else if mode.testBit 63 = true ∧
            (name = [] ∨ name = dotName ∨ name = dotdotName) then
      (s, .accessDenied, none)
    else if name = [] ∨ name = dotName then
      ({ s with
          files := setF s.files pid { file with refCount := file.refCount + 1 }
          totalRefCount := s.totalRefCount + 1 },
       .success, some (pid, if mode.testBit 1 then Access.rw else Access.ro))
    else
      let s0 : EfiFs := { s with pathAllocCount := s.pathAllocCount + 1 }
      let conv : WStr → WStr :=
        List.map (fun d => if d = DOS_PATH_CHAR then PATH_CHAR else d)
      let path0 : WStr :=
        match name with
        | [] => []
        | c :: _ =>
          if c = PATH_CHAR ∨ c = DOS_PATH_CHAR then conv name
          else file.path ++ [PATH_CHAR] ++ conv name
      let path1 := CleanPath path0
      let nid := s0.nextId
      let s1 : EfiFs :=
        { s0 with
            files := (nid, blankFile) :: s0.files
            nextId := nid + 1
            fileAllocCount := s0.fileAllocCount + 1 }
      if path1 = [PATH_CHAR] ∧ mode.testBit 63 = true then
        (NtfsFreeFile s1 nid, .accessDenied, none)
      else
        let bn := BaseNameOf path1
        if mode.testBit 63 = true then
          let nf : NtfsFile :=
            { blankFile with
                path := path1
                baseName := bn
                isDir := attrs.testBit 4
                inodePresent := true
                refCount := 1 }
          ({ s1 with
              files := setF s1.files nid nf
              totalRefCount := s1.totalRefCount + 1 },
           .success, some (nid, if mode.testBit 1 then Access.rw else Access.ro))
        else
          match eng path1 with
          | none => (NtfsFreeFile s1 nid, .notFound, none)
          | some d =>
            let nf : NtfsFile :=
              { blankFile with
                  path := path1
                  baseName := bn
                  isDir := d
                  isRoot := decide (path1 = [PATH_CHAR])
                  inodePresent := true
                  refCount := 1 }
            ({ s1 with
                files := setF s1.files nid nf
                totalRefCount := s1.totalRefCount + 1 },
             .success, some (nid, if mode.testBit 1 then Access.rw else Access.ro))

/-- `FileClose` (`uefi_file.c:213`): always succeeds; decrements the handle's
reference count, destroying the object when the count falls to or below zero
(`NtfsCloseFile` releases the engine node, `NtfsFreeFile` destroys the object);
then decrements the volume's total count and unmounts when it falls to or
below zero. -/
def FileClose (s : EfiFs) (id : Nat) : EfiFs × EfiStatus :=
  match s.files.lookup id with
  | none => (s, .success)
  | some f =>
    let rc := f.refCount - 1
    let s1 :=
      if rc ≤ 0 then
        NtfsFreeFile
          { s with files := setF s.files id { f with refCount := rc, inodePresent := false } }
          id
      else { s with files := setF s.files id { f with refCount := rc } }
    let s2 : EfiFs := { s1 with totalRefCount := s1.totalRefCount - 1 }
    if s2.totalRefCount ≤ 0 then (NtfsUnmountVolume s2, .success)
    else (s2, .success)

/-- `FileDelete` (`uefi_file.c:250`).  Refuses the root or an already-gone
object with AccessDenied; otherwise decrements both reference counts, then
returns WarnDeleteFailure when references remain or the volume is read-only
(note that on those two early returns neither the object destruction nor the
unmount-at-zero check is performed); otherwise deletes the object through the
engine (`NtfsDeleteFile`, modelled from the spec (§6) as closing the node and
removing the on-disk object, successfully), frees it, and unmounts the volume
if the total count reached zero. -/
def FileDelete (s : EfiFs) (id : Nat) : EfiFs × EfiStatus :=
  match s.files.lookup id with
  | none => (s, .accessDenied)
  | some f =>
    if f.isRoot = true ∨ f.inodePresent = false then (s, .accessDenied)
    else
      let rc := f.refCount - 1
      let s1 : EfiFs :=
        { s with
            files := setF s.files id { f with refCount := rc }
            totalRefCount := s.totalRefCount - 1 }
      if f.isRoot = true ∨ 0 < rc then (s1, .warnDeleteFailure)
      else if s.readOnly = true then (s1, .warnDeleteFailure)
      else
        let s2 :=
          NtfsFreeFile
            { s1 with files := setF s1.files id { f with refCount := rc, inodePresent := false } }
            id
        if s2.totalRefCount ≤ 0 then (NtfsUnmountVolume s2, .success)
        else (s2, .success)

/-- `FileWrite` (`uefi_file.c:399`), invoked through the handle value
`(id, acc)`: DeviceError when the engine node is gone, AccessDenied on a
read-only value, WriteProtected on a read-only volume, Unsupported on a
directory; otherwise the bytes are delegated to the engine write
(`NtfsWriteFile`, modelled from the spec (§4.5) as writing the `len` bytes and
advancing the offset, successfully). -/
def FileWrite (s : EfiFs) (id : Nat) (acc : Access) (len : Nat) :
    EfiFs × EfiStatus :=
  match s.files.lookup id with
  | none => (s, .deviceError)
  | some f =>
    if f.inodePresent = false then (s, .deviceError)
    else if acc = Access.ro then (s, .accessDenied)
    else if s.readOnly = true then (s, .writeProtected)
    else if f.isDir = true then (s, .unsupported)
    else
      ({ s with files := setF s.files id { f with offset := f.offset + len } },
       .success)

/-- One directory entry as presented to `DirHook`: the entry name, its MFT
reference (`MRef`), and its `DtType` (4 for directories). -/
structure DirEntry where
  name : WStr
  mref : Nat
  dtype : Nat
deriving DecidableEq, Repr

/-- Modelled from the spec: `GetInodeNumber` is declared outside the provided
sources; it extracts the inode number from an NTFS MFT reference, whose low 48
bits are the record (inode) number. -/
def GetInodeNumber (mref : Nat) : Nat := mref % 2 ^ 48

/-- The NTFS root inode number.  Modelled from the spec (§8: "root=5"); the
constant `FILE_ROOT` comes from the NTFS layout headers, not provided here. -/
def FILE_ROOT : Nat := 5

/-- The first non-system NTFS inode number.  Modelled from the spec (§8:
"first-user=16"); the constant `FILE_FIRST_USER` comes from the NTFS layout
headers, not provided here. -/
def FILE_FIRST_USER : Nat := 16

/-- Offset of the flexible `FileName` array inside `EFI_FILE_INFO`
(`SIZE_OF_EFI_FILE_INFO`): Size, FileSize, PhysicalSize (8 bytes each), three
EFI_TIME stamps (16 bytes each) and Attribute (8 bytes). -/
def SIZE_OF_EFI_FILE_INFO : Nat := 80

/-- Offset of the flexible `VolumeLabel` array inside `EFI_FILE_SYSTEM_INFO`
(`SIZE_OF_EFI_FILE_SYSTEM_INFO`): Size (8), ReadOnly (8 with padding),
VolumeSize (8), FreeSpace (8), BlockSize (4). -/
def SIZE_OF_EFI_FILE_SYSTEM_INFO : Nat := 36

/-- `SafeStrSize`: byte size of a CHAR16 string including its NUL
terminator. -/
def SafeStrSize (s : WStr) : Nat := (s.length + 1) * 2

/-- Outcome of one `DirHook` invocation on one entry: skip it and continue
(return 0), deliver it and stop (return 1), or fail with a status posted
through `NtfsSetErrno` (return -1). -/
inductive HookRes where
  | skip
  | deliver
  | err (st : EfiStatus)
deriving DecidableEq, Repr

/-- `DirHook` (`uefi_file.c:294`), for a caller buffer of `bufSize` bytes
(`HookData->Info->Size` is preloaded with the caller's length).  System
entries other than the root are skipped; the NTFS name-length bound
`FS_ASSERT(NameLen < 256)` is an internal consistency check, modelled as a
failing branch; a buffer that cannot hold the encoded name fails with
BufferTooSmall; otherwise the name is copied, `Info->Size` set, and the
metadata filled by `NtfsGetFileInfo` (an engine collaborator, modelled from
the spec (§6) as succeeding), and the hook stops after this one entry. -/
def DirHook (bufSize : Nat) (e : DirEntry) : HookRes :=
  if GetInodeNumber e.mref < FILE_FIRST_USER ∧ GetInodeNumber e.mref ≠ FILE_ROOT then
    .skip
  else if 256 ≤ e.name.length then .err .deviceError
  else if bufSize < (e.name.length + 1) * 2 then .err .bufferTooSmall
  else .deliver

/-- Modelled from the spec: `NtfsReadDirectory` of `uefi_bridge.c` is not among
the provided sources.  Per §4.4 the engine primitive visits the directory
entries from the current enumeration position (here: the remaining entry
list), invoking the supplied callback on each; a callback "skip" advances past
the entry, a "deliver" stops with that entry consumed, an error stops without
consuming it, and running out of entries reports end-of-directory.  The result
is the status, the delivered entry if any, and the remaining entries. -/
def NtfsReadDirectory (bufSize : Nat) :
    List DirEntry → EfiStatus × Option DirEntry × List DirEntry
  | [] => (.endOfFile, none, [])
  | e :: es =>
    match DirHook bufSize e with
    | .skip => NtfsReadDirectory bufSize es
    | .deliver => (.success, some e, es)
    | .err st => (st, none, e :: es)

/-- `FileReadDir` (`uefi_file.c:337`): drives `NtfsReadDirectory` with
`DirHook`; end-of-directory becomes a successful zero-length read, any other
error is propagated unchanged with the caller's length untouched, and a
delivered entry yields `Info->Size`, i.e. the fixed header plus the
NUL-terminated name.  The result is the status, the returned length, the
delivered entry if any, and the directory's new enumeration position. -/
def FileReadDir (bufSize : Nat) (entries : List DirEntry) :
    EfiStatus × Nat × Option DirEntry × List DirEntry :=
  match NtfsReadDirectory bufSize entries with
  | (.success, some e, rest) =>
    (.success, SIZE_OF_EFI_FILE_INFO + (e.name.length + 1) * 2, some e, rest)
  | (.success, none, rest) => (.success, 0, none, rest)
  | (.endOfFile, _, rest) => (.success, 0, none, rest)
  | (st, _, rest) => (st, bufSize, none, rest)

/-- The sequence of entries surfaced by repeatedly calling `FileReadDir` until
it returns no entry, starting from the given enumeration position and bounded
by the `fuel` of remaining calls. -/
def ReadDirAll (bufSize : Nat) : Nat → List DirEntry → List DirEntry
  | 0, _ => []
  | fuel + 1, entries =>
    match FileReadDir bufSize entries with
    | (_, _, some e, rest) => e :: ReadDirAll bufSize fuel rest
    | _ => []

/-- An entry survives the `DirHook` skip rule iff it is the root entry or a
first-user-or-later inode. -/
def SurfacedEntry (e : DirEntry) : Bool :=
  decide (GetInodeNumber e.mref = FILE_ROOT ∨ FILE_FIRST_USER ≤ GetInodeNumber e.mref)

/-- The information kind requested from `FileGetInfo`/`FileSetInfo`, i.e. which
of the three known GUIDs the `Type` argument matched, if any. -/
inductive InfoType where
  | fileKind
  | fsKind
  | volLabelKind
  | otherKind
deriving DecidableEq, Repr

/-- The volume-level facts `FileGetInfo` reads from the `EFI_FS` and its block
transport: the cached volume label, the engine's read-only report, and the
transport's block geometry and free-space report. -/
structure FsMeta where
  label : Option WStr
  readOnly : Bool
  blockSize : Nat
  lastBlock : Nat
  freeSpace : Nat
deriving DecidableEq, Repr

/-- What `FileGetInfo` wrote into the caller's buffer, when it wrote at all:
the frame condition of the buffer-too-small protocol is that an unsuccessful
call writes nothing (`none`). -/
inductive InfoOut where
  | fileOut (name : WStr) (size : Nat)
  | fsOut (ro : Bool) (blockSize volumeSize freeSpace : Nat) (label : WStr) (size : Nat)
  | labelOut (label : WStr)
deriving DecidableEq, Repr

/-- `SafeStrSize` of the volume label, with the NUL fallback the code uses
when `NtfsVolumeLabel` is null (`uefi_file.c:554` and `603`). -/
def VolumeLabelSize (fs : FsMeta) : Nat :=
  match fs.label with
  | none => 2
  | some l => SafeStrSize l

/-- `FileGetInfo` (`uefi_file.c:509`), returning the status, the value left in
the caller's in/out length, and what was written into the buffer (`none` when
the buffer was not touched).  `NtfsGetFileInfo`, `NtfsGetVolumeFreeSpace` and
`NtfsIsVolumeReadOnly` are engine collaborators modelled from the spec (§6) as
succeeding with the values recorded in `FsMeta`; the `BlockIo`/`BlockIo2`
transports are merged into the single block geometry of `FsMeta`. -/
def FileGetInfo (f : NtfsFile) (fs : FsMeta) (ty : InfoType) (len : Nat) :
    EfiStatus × Nat × Option InfoOut :=
  if f.inodePresent = false then (.deviceError, len, none)
  else
    match ty with
    | .fileKind =>
      let size := SafeStrSize f.baseName
      if len < SIZE_OF_EFI_FILE_INFO + size then
        (.bufferTooSmall, SIZE_OF_EFI_FILE_INFO + size, none)
      else
        (.success, SIZE_OF_EFI_FILE_INFO + size,
         some (.fileOut f.baseName (SIZE_OF_EFI_FILE_INFO + size)))
    | .fsKind =>
      let size := VolumeLabelSize fs
      if len < SIZE_OF_EFI_FILE_SYSTEM_INFO + size then
        (.bufferTooSmall, SIZE_OF_EFI_FILE_SYSTEM_INFO + size, none)
      else
        let bs := if fs.blockSize = 0 then 512 else fs.blockSize
        (.success, SIZE_OF_EFI_FILE_SYSTEM_INFO + size,
         some (.fsOut fs.readOnly bs ((fs.lastBlock + 1) * bs) fs.freeSpace
                (fs.label.getD []) (SIZE_OF_EFI_FILE_SYSTEM_INFO + size)))
    | .volLabelKind =>
      if f.isRoot = false then (.accessDenied, len, none)
      else if len < 2 then (.bufferTooSmall, len, none)
      else
        let size := VolumeLabelSize fs
        if size < len then (.bufferTooSmall, size, none)
        else (.success, size, some (.labelOut (fs.label.getD [])))
    | .otherKind => (.unsupported, len, none)

/-- An engine open oracle for concrete runs: every resolved path opens
successfully as a plain (non-directory) file. -/
def engF : WStr → Option Bool := fun _ => some false

/-- The one-letter file name "f". -/
def fName : WStr := [102]

/-- A read-only volume right after `FileOpenVolume`: the root handle is open
under id 0 and the total count is 1. -/
def roTrace0 : EfiFs := (FileOpenVolume (InitState true)).1

/-- ... after additionally opening the file "f" read-only (id 1, total 2). -/
def roTrace1 : EfiFs := (FileOpen engF roTrace0 0 fName EFI_FILE_MODE_READ 0).1

/-- ... after closing the root handle (total 1, only "f" remains open). -/
def roTrace2 : EfiFs := (FileClose roTrace1 0).1

/-- The result of `FileDelete` on the last open handle of that read-only
volume: the delete decrements the total count to 0 and returns
WarnDeleteFailure without unmounting and without destroying the handle. -/
def roDelete : EfiFs × EfiStatus := FileDelete roTrace2 1

/-- A writable volume right after `FileOpenVolume`: the root directory handle
is open under id 0. -/
def rwState : EfiFs := (FileOpenVolume (InitState false)).1

/-- A plain open file "/f" whose reference count is 2 (open through two
values). -/
def wFile : NtfsFile :=
  { isDir := false, isRoot := false, dirPos := 0, offset := 0,
    path := [PATH_CHAR, 102], baseName := [102], refCount := 2,
    inodePresent := true }

/-- A writable mounted volume holding only `wFile` under id 1. -/
def wState2 : EfiFs :=
  { mounted := true, readOnly := false, totalRefCount := 2,
    files := [(1, wFile)], nextId := 2, pathAllocCount := 2,
    fileAllocCount := 2 }

/-- The open root directory handle object. -/
def rootFile : NtfsFile :=
  { isDir := true, isRoot := true, dirPos := 0, offset := 0,
    path := [PATH_CHAR], baseName := [], refCount := 1, inodePresent := true }

/-- The five-character volume label "LABEL"; its `SafeStrSize` is 12 bytes. -/
def labelStr : WStr := [76, 65, 66, 69, 76]

/-- Sample volume-level facts with that label. -/
def sampleFs : FsMeta :=
  { label := some labelStr, readOnly := false, blockSize := 512,
    lastBlock := 99, freeSpace := 4096 }

/-- A sample directory: inodes 0 and 7 are non-root system entries, 5 is the
root entry, 16 and 20 are user entries. -/
def sampleEntries : List DirEntry :=
  [{ name := [97], mref := 0, dtype := 0 },
   { name := [98], mref := 5, dtype := 4 },
   { name := [99], mref := 7, dtype := 0 },
   { name := [100], mref := 16, dtype := 0 },
   { name := [101, 101], mref := 20, dtype := 4 }]

/-- A directory whose entries are all non-root system inodes: enumeration
skips them all and reaches end-of-directory. -/
def sysEntries : List DirEntry :=
  [{ name := [97], mref := 0, dtype := 0 },
   { name := [99], mref := 7, dtype := 0 }]

theorem lookup_setF_self (l : List (Nat × NtfsFile)) (id : Nat) (f g : NtfsFile)
    (h : l.lookup id = some g) : (setF l id f).lookup id = some f := by
  induction l with
  | nil => simp [List.lookup] at h
  | cons p t ih =>
    obtain ⟨a, b⟩ := p
    by_cases hid : id = a
    · subst hid
      simp [setF, List.map_cons, List.lookup_cons]
    · have hba : (id == a) = false := beq_eq_false_iff_ne.mpr hid
      have hne : ¬(a = id) := fun hc => hid hc.symm
      have h' : t.lookup id = some g := by simpa [List.lookup_cons, hba] using h
      simpa [setF, List.map_cons, List.lookup_cons, hba, hne] using ih h'

theorem lookup_removeF_self (l : List (Nat × NtfsFile)) (id : Nat) :
    (removeF l id).lookup id = none := by
  induction l with
  | nil => rfl
  | cons p t ih =>
    obtain ⟨a, b⟩ := p
    by_cases hid : a = id
    · simpa [removeF, List.filter_cons, hid] using ih
    · have hba : (id == a) = false := beq_eq_false_iff_ne.mpr (fun hc => hid hc.symm)
      simpa [removeF, List.filter_cons, hid, List.lookup, hba] using ih

/-- C1: the claim states that between any two operations a volume is mounted
iff its total open-handle count is positive, and that a Close or a Delete that
brings the total count to zero unmounts the volume before returning.  The code
violates this: on the reachable trace OpenVolume, Open "f" read-only, Close
the root, Delete "f" over a read-only volume, `FileDelete` decrements the
total count to zero and returns WarnDeleteFailure through the early
read-only return (`uefi_file.c:275`), skipping the unmount-at-zero check, so
the volume is left mounted with a zero total count — contradicting both the
claim and the code's own account in the `FileOpenVolume` comment ("When that
number reaches zero, we unmount the NTFS volume"). -/
theorem FileDelete_skips_unmount_at_zero :
    roDelete.2 = EfiStatus.warnDeleteFailure ∧
    roDelete.1.totalRefCount = 0 ∧
    roDelete.1.mounted = true := by decide

/-- C2: the claim states that a handle object is destroyed exactly when its
reference count reaches 0 during an operation.  The code violates the "if"
direction: on the same read-only-volume trace as C1, `FileDelete` decrements
the handle's reference count to 0 but returns through the early read-only
WarnDeleteFailure branch (`uefi_file.c:275`) without calling `NtfsCloseFile`
or `NtfsFreeFile`, so the object (engine node still open, path still
allocated) survives with reference count 0. -/
theorem FileDelete_leaks_zero_ref_handle :
    (roDelete.1.files.lookup 1).isSome = true ∧
    (roDelete.1.files.lookup 1).map NtfsFile.refCount = some 0 := by decide

theorem mem_removeF (l : List (Nat × NtfsFile)) (id : Nat) (a : Nat)
    (b : NtfsFile) (h : (a, b) ∈ removeF l id) : ¬id = a := by
  have hp := List.of_mem_filter h
  simp only [decide_eq_true_eq] at hp
  exact fun hc => hp hc.symm

/-- C3: Delete has three-valued semantics: on the root handle it always
returns AccessDenied; on a handle with reference count 2 it returns
WarnDeleteFailure leaving the object present with reference count 1; on the
last reference to a non-root handle of a writable volume it removes the
object and returns success. -/
theorem FileDelete_semantics (s : EfiFs) (id : Nat) (f : NtfsFile)
    (hf : s.files.lookup id = some f) :
    (f.isRoot = true → FileDelete s id = (s, EfiStatus.accessDenied)) ∧
    (f.isRoot = false → f.inodePresent = true → f.refCount = 2 →
      (FileDelete s id).2 = EfiStatus.warnDeleteFailure ∧
      ((FileDelete s id).1.files.lookup id).map NtfsFile.refCount = some 1) ∧
    (f.isRoot = false → f.inodePresent = true → f.refCount = 1 →
      s.readOnly = false →
      (FileDelete s id).2 = EfiStatus.success ∧
      (FileDelete s id).1.files.lookup id = none) := by
  refine ⟨?_, ?_, ?_⟩
  · intro hr
    simp [FileDelete, hf, hr]
  · intro hr hi hrc
    obtain ⟨d, r, dp, off, pa, bn, rc, ip⟩ := f
    replace hr : r = false := hr
    replace hi : ip = true := hi
    replace hrc : rc = 2 := hrc
    subst hr; subst hi; subst hrc
    have h1 : (setF s.files id ⟨d, false, dp, off, pa, bn, 1, true⟩).lookup id
        = some ⟨d, false, dp, off, pa, bn, 1, true⟩ :=
      lookup_setF_self s.files id _ _ hf
    simp [FileDelete, hf, h1]
  · intro hr hi hrc hro
    obtain ⟨d, r, dp, off, pa, bn, rc, ip⟩ := f
    replace hr : r = false := hr
    replace hi : ip = true := hi
    replace hrc : rc = 1 := hrc
    subst hr; subst hi; subst hrc
    have h1 : (setF s.files id ⟨d, false, dp, off, pa, bn, 0, true⟩).lookup id
        = some ⟨d, false, dp, off, pa, bn, 0, true⟩ :=
      lookup_setF_self s.files id _ _ hf
    have h2 : (setF (setF s.files id ⟨d, false, dp, off, pa, bn, 0, true⟩) id
          ⟨d, false, dp, off, pa, bn, 0, false⟩).lookup id
        = some ⟨d, false, dp, off, pa, bn, 0, false⟩ :=
      lookup_setF_self _ id _ _ h1
    simp [FileDelete, hf, hro, NtfsFreeFile, h1, h2]
    split <;>
      (simp [NtfsUnmountVolume, lookup_removeF_self]
       intro a b hm
       exact mem_removeF _ _ _ _ hm)

/-- Witness for C3: the three-valued Delete semantics applied to the concrete
volume `wState2` holding the doubly-referenced file `wFile` under id 1. -/
theorem FileDelete_semantics_witness :
    (wFile.isRoot = true → FileDelete wState2 1 = (wState2, EfiStatus.accessDenied)) ∧
    (wFile.isRoot = false → wFile.inodePresent = true → wFile.refCount = 2 →
      (FileDelete wState2 1).2 = EfiStatus.warnDeleteFailure ∧
      ((FileDelete wState2 1).1.files.lookup 1).map NtfsFile.refCount = some 1) ∧
    (wFile.isRoot = false → wFile.inodePresent = true → wFile.refCount = 1 →
      wState2.readOnly = false →
      (FileDelete wState2 1).2 = EfiStatus.success ∧
      (FileDelete wState2 1).1.files.lookup 1 = none) :=
  FileDelete_semantics wState2 1 wFile (by decide)

/-- C4 (amended): for every directory handle, Open with name "" or "." and a
mode of Read or Read+Write (with the volume writable when write access is
requested) allocates no new object and no new path: the handle object's
reference count and the volume's total count are each incremented by 1 and
the returned value aliases the same object, read-write when the mode includes
write access and read-only otherwise.  (The claim's unrestricted version
fails when the Create bit is set, see the counterexample.) -/
theorem FileOpen_reopen_self (eng : WStr → Option Bool) (s : EfiFs) (pid : Nat)
    (f : NtfsFile) (name : WStr) (mode attrs : Nat)
    (hf : s.files.lookup pid = some f)
    (hd : f.isDir = true)
    (hn : name = [] ∨ name = dotName)
    (hm : mode = EFI_FILE_MODE_READ ∨
          mode = EFI_FILE_MODE_READ + EFI_FILE_MODE_WRITE)
    (hro : mode = EFI_FILE_MODE_READ + EFI_FILE_MODE_WRITE → s.readOnly = false) :
    FileOpen eng s pid name mode attrs =
      ({ s with
          files := setF s.files pid { f with refCount := f.refCount + 1 }
          totalRefCount := s.totalRefCount + 1 },
       EfiStatus.success,
       some (pid, if mode.testBit 1 then Access.rw else Access.ro)) := by
  have hb1 : Nat.testBit 1 1 = false := by decide
  have hb2 : Nat.testBit 3 1 = true := by decide
  have hc1 : Nat.testBit 1 63 = false := by decide
  have hc2 : Nat.testBit 3 63 = false := by decide
  rcases hn with rfl | rfl <;> rcases hm with rfl | rfl <;>
    simp_all [FileOpen, hf, hd, EFI_FILE_MODE_READ, EFI_FILE_MODE_WRITE,
      EFI_FILE_MODE_CREATE, dotName, dotdotName]

/-- Counterexample for C4 as stated: on the root directory handle of a
writable volume, Open with name "." and mode Create+Read+Write does not bump
the reference count and return an aliasing value — it is refused with
AccessDenied by the reserved-create-names check, leaving the state
unchanged. -/
theorem FileOpen_reopen_create_denied :
    FileOpen engF rwState 0 dotName
        (EFI_FILE_MODE_CREATE + EFI_FILE_MODE_READ + EFI_FILE_MODE_WRITE) 0 =
      (rwState, EfiStatus.accessDenied, none) := by decide

/-- Witness for C4 (amended): reopening "." read-write on the root directory
handle of the writable volume `rwState`. -/
theorem FileOpen_reopen_self_witness :
    FileOpen engF rwState 0 dotName
        (EFI_FILE_MODE_READ + EFI_FILE_MODE_WRITE) 0 =
      ({ rwState with
          files := setF rwState.files 0 { rootFile with refCount := rootFile.refCount + 1 }
          totalRefCount := rwState.totalRefCount + 1 },
       EfiStatus.success,
       some (0, if (EFI_FILE_MODE_READ + EFI_FILE_MODE_WRITE).testBit 1
                then Access.rw else Access.ro)) :=
  FileOpen_reopen_self engF rwState 0 rootFile dotName
    (EFI_FILE_MODE_READ + EFI_FILE_MODE_WRITE) 0 (by decide) (by decide)
    (Or.inr rfl) (Or.inr rfl) (fun _ => by decide)

/-- C5: Write fails with DeviceError when the underlying object is gone (for
either handle value), with AccessDenied when invoked through a read-only
value (whatever the object's other state), with WriteProtected when the
volume is read-only, and with Unsupported when the handle is a directory;
otherwise it delegates the bytes to the engine write, advancing the
offset. -/
theorem FileWrite_checks (s : EfiFs) (id : Nat) (f : NtfsFile) (len : Nat)
    (hf : s.files.lookup id = some f) :
    (f.inodePresent = false →
      FileWrite s id Access.ro len = (s, EfiStatus.deviceError) ∧
      FileWrite s id Access.rw len = (s, EfiStatus.deviceError)) ∧
    (f.inodePresent = true →
      FileWrite s id Access.ro len = (s, EfiStatus.accessDenied)) ∧
    (f.inodePresent = true → s.readOnly = true →
      FileWrite s id Access.rw len = (s, EfiStatus.writeProtected)) ∧
    (f.inodePresent = true → s.readOnly = false → f.isDir = true →
      FileWrite s id Access.rw len = (s, EfiStatus.unsupported)) ∧
    (f.inodePresent = true → s.readOnly = false → f.isDir = false →
      FileWrite s id Access.rw len =
        ({ s with files := setF s.files id { f with offset := f.offset + len } },
         EfiStatus.success)) := by
  refine ⟨?_, ?_, ?_, ?_, ?_⟩ <;> intros <;>
    simp_all [FileWrite, hf]

/-- Witness for C5: the Write checks applied to the concrete volume `wState2`
holding the writable plain file `wFile` under id 1, with 7 bytes. -/
theorem FileWrite_checks_witness :
    (wFile.inodePresent = false →
      FileWrite wState2 1 Access.ro 7 = (wState2, EfiStatus.deviceError) ∧
      FileWrite wState2 1 Access.rw 7 = (wState2, EfiStatus.deviceError)) ∧
    (wFile.inodePresent = true →
      FileWrite wState2 1 Access.ro 7 = (wState2, EfiStatus.accessDenied)) ∧
    (wFile.inodePresent = true → wState2.readOnly = true →
      FileWrite wState2 1 Access.rw 7 = (wState2, EfiStatus.writeProtected)) ∧
    (wFile.inodePresent = true → wState2.readOnly = false → wFile.isDir = true →
      FileWrite wState2 1 Access.rw 7 = (wState2, EfiStatus.unsupported)) ∧
    (wFile.inodePresent = true → wState2.readOnly = false → wFile.isDir = false →
      FileWrite wState2 1 Access.rw 7 =
        ({ wState2 with files := setF wState2.files 1 { wFile with offset := wFile.offset + 7 } },
         EfiStatus.success)) :=
  FileWrite_checks wState2 1 wFile 7 (by decide)

/-- C6 (amended): an Open call whose requested mode is not one of Read,
Read+Write, or Create+Read+Write returns InvalidParameter, provided the
volume is writable, the parent handle is a directory, and the request is not
".." on the root — those three checks precede the mode check in the code, so
on a read-only volume an invalid mode is answered with WriteProtected
instead (see the counterexample). -/
theorem FileOpen_bad_mode (eng : WStr → Option Bool) (s : EfiFs) (pid : Nat)
    (f : NtfsFile) (name : WStr) (mode attrs : Nat)
    (hf : s.files.lookup pid = some f)
    (hro : s.readOnly = false)
    (hd : f.isDir = true)
    (hnr : ¬(name = dotdotName ∧ f.isRoot = true))
    (hm1 : mode ≠ EFI_FILE_MODE_READ)
    (hm2 : mode ≠ EFI_FILE_MODE_READ + EFI_FILE_MODE_WRITE)
    (hm3 : mode ≠ EFI_FILE_MODE_CREATE + EFI_FILE_MODE_READ + EFI_FILE_MODE_WRITE) :
    FileOpen eng s pid name mode attrs = (s, EfiStatus.invalidParameter, none) := by
  simp [FileOpen, hf, hro, hd, hnr, hm1, hm2, hm3]

/-- Counterexample for C6 as stated: on a read-only volume the invalid mode 2
(write-only) is answered with WriteProtected, not InvalidParameter, because
the read-only-media check precedes the mode-combination check. -/
theorem FileOpen_bad_mode_on_readonly :
    FileOpen engF roTrace0 0 fName 2 0 =
      (roTrace0, EfiStatus.writeProtected, none) := by decide

/-- Witness for C6 (amended): the invalid write-only mode 2 on the root
directory of the writable volume `rwState` is refused with
InvalidParameter. -/
theorem FileOpen_bad_mode_witness :
    FileOpen engF rwState 0 fName 2 0 =
      (rwState, EfiStatus.invalidParameter, none) :=
  FileOpen_bad_mode engF rwState 0 rootFile fName 2 0 (by decide) (by decide)
    (by decide) (by decide) (by decide) (by decide) (by decide)

theorem DirHook_skip_of (bufSize : Nat) (e : DirEntry) (h48 : e.mref < 2 ^ 48)
    (hs : SurfacedEntry e = false) : DirHook bufSize e = HookRes.skip := by
  have hmod : GetInodeNumber e.mref = e.mref := Nat.mod_eq_of_lt h48
  simp only [SurfacedEntry, hmod, decide_eq_false_iff_not, not_or, not_le] at hs
  unfold DirHook
  rw [hmod, if_pos ⟨hs.2, hs.1⟩]

theorem DirHook_deliver_of (bufSize : Nat) (e : DirEntry)
    (h48 : e.mref < 2 ^ 48) (hs : SurfacedEntry e = true)
    (hn : e.name.length < 256)
    (hfit : (e.name.length + 1) * 2 ≤ bufSize) :
    DirHook bufSize e = HookRes.deliver := by
  have hmod : GetInodeNumber e.mref = e.mref := Nat.mod_eq_of_lt h48
  simp only [SurfacedEntry, hmod, decide_eq_true_eq] at hs
  have hskip : ¬(e.mref < FILE_FIRST_USER ∧ e.mref ≠ FILE_ROOT) := by
    rcases hs with h5 | h16
    · exact fun hc => hc.2 h5
    · exact fun hc => absurd hc.1 (not_lt.mpr h16)
  unfold DirHook
  rw [hmod, if_neg hskip, if_neg (not_le.mpr hn), if_neg (not_lt.mpr hfit)]

theorem ReadDirAll_eq_filter (bufSize : Nat) (entries : List DirEntry)
    (hw : ∀ e ∈ entries, e.mref < 2 ^ 48 ∧ e.name.length < 256 ∧
          (SurfacedEntry e = true → (e.name.length + 1) * 2 ≤ bufSize)) :
    ∀ fuel, entries.length ≤ fuel →
      ReadDirAll bufSize fuel entries = entries.filter SurfacedEntry := by
  induction entries with
  | nil =>
    intro fuel _
    cases fuel <;> simp [ReadDirAll, FileReadDir, NtfsReadDirectory]
  | cons e es ih =>
    intro fuel hfuel
    obtain ⟨h48, hn, hfit⟩ := hw e (by simp)
    have hw' : ∀ e' ∈ es, e'.mref < 2 ^ 48 ∧ e'.name.length < 256 ∧
        (SurfacedEntry e' = true → (e'.name.length + 1) * 2 ≤ bufSize) :=
      fun e' he' => hw e' (by simp [he'])
    cases fuel with
    | zero => simp at hfuel
    | succ fl =>
      cases hs : SurfacedEntry e with
      | false =>
        have hsk := DirHook_skip_of bufSize e h48 hs
        have hfr : FileReadDir bufSize (e :: es) = FileReadDir bufSize es := by
          simp [FileReadDir, NtfsReadDirectory, hsk]
        have hstep : ReadDirAll bufSize (fl + 1) (e :: es)
            = ReadDirAll bufSize (fl + 1) es := by
          simp only [ReadDirAll, hfr]
        rw [hstep, ih hw' (fl + 1) (by simp at hfuel; omega),
          List.filter_cons_of_neg (by simp [hs])]
      | true =>
        have hdl := DirHook_deliver_of bufSize e h48 hs hn (hfit hs)
        have hfr : FileReadDir bufSize (e :: es)
            = (EfiStatus.success,
               SIZE_OF_EFI_FILE_INFO + (e.name.length + 1) * 2, some e, es) := by
          simp [FileReadDir, NtfsReadDirectory, hdl]
        have hstep : ReadDirAll bufSize (fl + 1) (e :: es)
            = e :: ReadDirAll bufSize fl es := by
          simp only [ReadDirAll, hfr]
        rw [hstep, ih hw' fl (by simp at hfuel; omega),
          List.filter_cons_of_pos (by simp [hs])]

/-- C7: directory enumeration skip rule: for a directory of entries with
48-bit inode numbers (root inode `FILE_ROOT` = 5, first user inode
`FILE_FIRST_USER` = 16), names within the NTFS bound, and a buffer that holds
every surfaced name, repeated Read calls surface exactly the root entry and
every entry with inode number ≥ 16 in order, excluding all others, and each
call returns at most one entry. -/
theorem DirHook_skip_rule (bufSize : Nat) (entries : List DirEntry)
    (hw : ∀ e ∈ entries, e.mref < 2 ^ 48 ∧ e.name.length < 256 ∧
          (SurfacedEntry e = true → (e.name.length + 1) * 2 ≤ bufSize)) :
    ReadDirAll bufSize entries.length entries
      = entries.filter (fun e =>
          decide (GetInodeNumber e.mref = FILE_ROOT ∨
                  FILE_FIRST_USER ≤ GetInodeNumber e.mref)) ∧
    ∀ l : List DirEntry, ((FileReadDir bufSize l).2.2.1).toList.length ≤ 1 := by
  constructor
  · exact ReadDirAll_eq_filter bufSize entries hw entries.length le_rfl
  · intro l
    cases h : (FileReadDir bufSize l).2.2.1 <;> simp [h]

/-- Witness for C7: the sample directory with inodes 0, 5, 7, 16, 20 and a
600-byte buffer surfaces exactly the entries with inodes 5, 16 and 20, one
per call. -/
theorem DirHook_skip_rule_witness :
    ReadDirAll 600 sampleEntries.length sampleEntries
      = sampleEntries.filter (fun e =>
          decide (GetInodeNumber e.mref = FILE_ROOT ∨
                  FILE_FIRST_USER ≤ GetInodeNumber e.mref)) ∧
    ((FileReadDir 600 sampleEntries).2.2.1).toList.length ≤ 1 :=
  ⟨(DirHook_skip_rule 600 sampleEntries (by decide)).1,
   (DirHook_skip_rule 600 sampleEntries (by decide)).2 sampleEntries⟩

/-- C8: end-of-directory is never surfaced as an error: a Read on a directory
whose enumeration position is at the end returns success with length zero,
the engine's end-of-directory report is translated into a successful
zero-length read, and every other engine error from the enumeration is
propagated unchanged. -/
theorem FileReadDir_eof_translation (bufSize : Nat) (entries : List DirEntry) :
    FileReadDir bufSize [] = (EfiStatus.success, 0, none, ([] : List DirEntry)) ∧
    ((NtfsReadDirectory bufSize entries).1 = EfiStatus.endOfFile →
      (FileReadDir bufSize entries).1 = EfiStatus.success ∧
      (FileReadDir bufSize entries).2.1 = 0) ∧
    (∀ st : EfiStatus, st ≠ EfiStatus.success → st ≠ EfiStatus.endOfFile →
      (NtfsReadDirectory bufSize entries).1 = st →
      (FileReadDir bufSize entries).1 = st) := by
  refine ⟨rfl, ?_, ?_⟩
  · intro h
    rcases hnr : NtfsReadDirectory bufSize entries with ⟨st, oe, rest⟩
    rw [hnr] at h
    simp only at h
    subst h
    simp [FileReadDir, hnr]
  · intro st h1 h2 heq
    rcases hnr : NtfsReadDirectory bufSize entries with ⟨st', oe, rest⟩
    rw [hnr] at heq
    simp only at heq
    subst heq
    cases st' <;> simp_all [FileReadDir, hnr]

/-- Witness for C8: the empty directory reads back as a zero-length success;
a directory of only skipped system entries reaches end-of-directory, which a
Read reports as a zero-length success; and the BufferTooSmall failure of the
zero-byte-buffer enumeration over the sample directory is propagated
unchanged. -/
theorem FileReadDir_eof_translation_witness :
    FileReadDir 0 [] = (EfiStatus.success, 0, none, ([] : List DirEntry)) ∧
    ((FileReadDir 9999 sysEntries).1 = EfiStatus.success ∧
      (FileReadDir 9999 sysEntries).2.1 = 0) ∧
    (FileReadDir 0 sampleEntries).1 = EfiStatus.bufferTooSmall :=
  ⟨(FileReadDir_eof_translation 0 sampleEntries).1,
   (FileReadDir_eof_translation 9999 sysEntries).2.1 (by decide),
   (FileReadDir_eof_translation 0 sampleEntries).2.2 EfiStatus.bufferTooSmall
     (by decide) (by decide) (by decide)⟩

/-- C9: the claim states the buffer-too-small protocol for every info kind:
an undersized buffer is answered with BufferTooSmall and the exact required
size written into the caller's size field, without touching the buffer.  The
code violates this for the volume-label kind: its size comparison is inverted
(`Size < *Len` instead of `*Len < Size`, `uefi_file.c:605`), so on the live
root handle with label "LABEL" (required size 12 bytes) a 4-byte buffer is
answered with success, the caller's length set to 12, and the 12-byte label
written into the 4-byte buffer — not with BufferTooSmall and the required
size. -/
theorem FileGetInfo_label_undersized_success :
    4 < VolumeLabelSize sampleFs ∧
    (FileGetInfo rootFile sampleFs InfoType.volLabelKind 4).1 =
      EfiStatus.success ∧
    (FileGetInfo rootFile sampleFs InfoType.volLabelKind 4).2.1 =
      VolumeLabelSize sampleFs ∧
    ((FileGetInfo rootFile sampleFs InfoType.volLabelKind 4).2.2).isSome =
      true := by decide

/-- C10: for the volume-label kind on a live root handle, GetInfo succeeds
exactly when the caller's buffer length is at least one CHAR16 code unit
(2 bytes) and at most the label's required size, and every call whose buffer
length strictly exceeds the required size is answered with BufferTooSmall,
the caller's size field set to the required size and the buffer untouched. -/
theorem FileGetInfo_volLabel_range (f : NtfsFile) (fs : FsMeta) (len : Nat)
    (hr : f.isRoot = true) (hi : f.inodePresent = true) :
    ((FileGetInfo f fs InfoType.volLabelKind len).1 = EfiStatus.success ↔
      2 ≤ len ∧ len ≤ VolumeLabelSize fs) ∧
    (VolumeLabelSize fs < len →
      FileGetInfo f fs InfoType.volLabelKind len =
        (EfiStatus.bufferTooSmall, VolumeLabelSize fs, none)) := by
  have hge : 2 ≤ VolumeLabelSize fs := by
    unfold VolumeLabelSize SafeStrSize
    cases fs.label with
    | none => simp
    | some l => simp
  constructor
  · constructor
    · intro h
      by_cases h2 : len < 2
      · simp [FileGetInfo, hr, hi, h2] at h
      · by_cases h3 : VolumeLabelSize fs < len
        · simp [FileGetInfo, hr, hi, h2, h3] at h
        · exact ⟨not_lt.mp h2, not_lt.mp h3⟩
    · rintro ⟨h2, h3⟩
      simp [FileGetInfo, hr, hi, not_lt.mpr h2, not_lt.mpr h3]
  · intro h
    have h2 : ¬len < 2 := by omega
    simp [FileGetInfo, hr, hi, h2, h]

/-- Witness for C10: on the live root handle with label "LABEL" (required
size 12), a 20-byte buffer does not succeed and is answered with
BufferTooSmall and the required size 12. -/
theorem FileGetInfo_volLabel_range_witness :
    ((FileGetInfo rootFile sampleFs InfoType.volLabelKind 20).1 =
        EfiStatus.success ↔
      2 ≤ 20 ∧ 20 ≤ VolumeLabelSize sampleFs) ∧
    (VolumeLabelSize sampleFs < 20 →
      FileGetInfo rootFile sampleFs InfoType.volLabelKind 20 =
        (EfiStatus.bufferTooSmall, VolumeLabelSize sampleFs, none)) :=
  FileGetInfo_volLabel_range rootFile sampleFs 20 (by decide) (by decide)
